import Mathlib

/-!
Verification of the Personal Expense Tracker (src/ExpenseTracker.py).

The SQLite-backed managers are embedded as pure functions over an explicit
database state `DBState` (the three tables: expenses, budget, categories).
Python `datetime.date` values are modelled by the proleptic Gregorian
calendar type `Date` below; Python `float` amounts are modelled by `ℚ`
(no claim under verification depends on floating-point rounding).
SQLite TEXT comparison (used by `date BETWEEN ? AND ?`) is modelled by
code-point lexicographic comparison `strLe`.
-/

/-- A calendar date, as Python's `datetime.date` (proleptic Gregorian). -/
structure Date where
  year : Nat
  month : Nat
  day : Nat
deriving DecidableEq, Repr

/-- Gregorian leap-year test (Python `calendar.isleap` semantics). -/
def isLeap (y : Nat) : Bool :=
  y % 4 == 0 && (y % 100 != 0 || y % 400 == 0)

/-- Number of days in month `m` of year `y`; 0 for the out-of-range month 0. -/
def daysInMonth (y m : Nat) : Nat :=
  if m = 0 then 0
  else if m = 2 then (if isLeap y then 29 else 28)
  else if m = 4 ∨ m = 6 ∨ m = 9 ∨ m = 11 then 30
  else 31

/-- Days in year `y` strictly before month `m`. -/
def daysBeforeMonth (y : Nat) : Nat → Nat
  | 0 => 0
  | m + 1 => daysBeforeMonth y m + daysInMonth y m

/-- `dt` denotes an actual calendar date (month and day in range).
Python's `datetime.date` constructor enforces exactly this. -/
def ValidDate (dt : Date) : Prop :=
  1 ≤ dt.year ∧ 1 ≤ dt.month ∧ dt.month ≤ 12 ∧ 1 ≤ dt.day ∧
    dt.day ≤ daysInMonth dt.year dt.month

instance : DecidablePred ValidDate := fun dt => by
  unfold ValidDate; infer_instance

/-- Rata-die ordinal of a date: `toOrdinal ⟨1,1,1⟩ = 1`, increasing by one
per day.  Matches Python's `date.toordinal()`. -/
def toOrdinal (dt : Date) : Nat :=
  365 * (dt.year - 1) + (dt.year - 1) / 4 + (dt.year - 1) / 400 +
    daysBeforeMonth dt.year dt.month + dt.day - (dt.year - 1) / 100

/-- Day of week, Monday = 0 .. Sunday = 6; Python `date.weekday()`
(which equals `(toordinal + 6) % 7`, since ordinal 1 is a Monday). -/
def weekday (dt : Date) : Nat :=
  (toOrdinal dt + 6) % 7

/-- The calendar day before `dt` (for valid `dt` other than 0001-01-01). -/
def datePred (dt : Date) : Date :=
  if 2 ≤ dt.day then ⟨dt.year, dt.month, dt.day - 1⟩
  else if 2 ≤ dt.month then ⟨dt.year, dt.month - 1, daysInMonth dt.year (dt.month - 1)⟩
  else ⟨dt.year - 1, 12, 31⟩

/-- `dt - timedelta(days = k)`: Python's date subtraction, modelled by the
iterated calendar predecessor (extensionally the same date). -/
def subDays (dt : Date) : Nat → Date
  | 0 => dt
  | k + 1 => datePred (subDays dt k)

/-- Left-pad the decimal rendering of `n` with zeros to width 2. -/
def pad2 (n : Nat) : String :=
  if n < 10 then "0" ++ toString n else toString n

/-- Left-pad the decimal rendering of `n` with zeros to width 4. -/
def pad4 (n : Nat) : String :=
  if n < 10 then "000" ++ toString n
  else if n < 100 then "00" ++ toString n
  else if n < 1000 then "0" ++ toString n
  else toString n

/-- `dt.strftime('%Y-%m-%d')`. -/
def formatDate (dt : Date) : String :=
  pad4 dt.year ++ "-" ++ pad2 dt.month ++ "-" ++ pad2 dt.day

/-- Code-point lexicographic comparison of character lists. -/
def leChars : List Char → List Char → Bool
  | [], _ => true
  | _ :: _, [] => false
  | a :: as, b :: bs => if a = b then leChars as bs else decide (a < b)

/-- SQLite TEXT `<=` (byte-wise comparison; on the ASCII date strings used
here this coincides with code-point order). -/
def strLe (a b : String) : Bool :=
  leChars a.data b.data

-- Calendar lemmas ---------------------------------------------------------

theorem daysInMonth_pos (y m : Nat) (h1 : 1 ≤ m) (h2 : m ≤ 12) :
    1 ≤ daysInMonth y m := by
  interval_cases m <;> simp [daysInMonth] <;> split <;> omega

theorem daysInMonth_le (y m : Nat) : daysInMonth y m ≤ 31 := by
  unfold daysInMonth
  split
  · omega
  · split
    · split <;> omega
    · split <;> omega

theorem daysBeforeMonth_succ (y m : Nat) :
    daysBeforeMonth y (m + 1) = daysBeforeMonth y m + daysInMonth y m := rfl

theorem isLeap_iff (y : Nat) :
    isLeap y = true ↔ (y % 4 = 0 ∧ (y % 100 ≠ 0 ∨ y % 400 = 0)) := by
  simp [isLeap]

theorem daysBeforeMonth_12 (y : Nat) :
    daysBeforeMonth y 12 = if isLeap y then 335 else 334 := by
  show daysBeforeMonth y (11+1) = _
  rw [daysBeforeMonth_succ]
  show daysBeforeMonth y (10+1) + _ = _
  rw [daysBeforeMonth_succ]
  show daysBeforeMonth y (9+1) + _ + _ = _
  rw [daysBeforeMonth_succ]
  show daysBeforeMonth y (8+1) + _ + _ + _ = _
  rw [daysBeforeMonth_succ]
  show daysBeforeMonth y (7+1) + _ + _ + _ + _ = _
  rw [daysBeforeMonth_succ]
  show daysBeforeMonth y (6+1) + _ + _ + _ + _ + _ = _
  rw [daysBeforeMonth_succ]
  show daysBeforeMonth y (5+1) + _ + _ + _ + _ + _ + _ = _
  rw [daysBeforeMonth_succ]
  show daysBeforeMonth y (4+1) + _ + _ + _ + _ + _ + _ + _ = _
  rw [daysBeforeMonth_succ]
  show daysBeforeMonth y (3+1) + _ + _ + _ + _ + _ + _ + _ + _ = _
  rw [daysBeforeMonth_succ]
  show daysBeforeMonth y (2+1) + _ + _ + _ + _ + _ + _ + _ + _ + _ = _
  rw [daysBeforeMonth_succ]
  show daysBeforeMonth y (1+1) + _ + _ + _ + _ + _ + _ + _ + _ + _ + _ = _
  rw [daysBeforeMonth_succ]
  show daysBeforeMonth y (0+1) + _ + _ + _ + _ + _ + _ + _ + _ + _ + _ + _ = _
  rw [daysBeforeMonth_succ]
  simp [daysBeforeMonth, daysInMonth]
  split <;> norm_num

theorem toOrdinal_mk (y m d : Nat) :
    toOrdinal ⟨y, m, d⟩ =
      365 * (y - 1) + (y - 1) / 4 + (y - 1) / 400 +
        daysBeforeMonth y m + d - (y - 1) / 100 := rfl

theorem ValidDate_mk (y m d : Nat) :
    ValidDate ⟨y, m, d⟩ ↔
      (1 ≤ y ∧ 1 ≤ m ∧ m ≤ 12 ∧ 1 ≤ d ∧ d ≤ daysInMonth y m) := Iff.rfl

theorem toOrdinal_pos (dt : Date) (h : ValidDate dt) : 1 ≤ toOrdinal dt := by
  obtain ⟨y, m, d⟩ := dt
  rw [ValidDate_mk] at h
  rw [toOrdinal_mk]
  omega

theorem datePred_spec (dt : Date) (h : ValidDate dt) (h2 : 2 ≤ toOrdinal dt) :
    ValidDate (datePred dt) ∧ toOrdinal (datePred dt) + 1 = toOrdinal dt := by
  obtain ⟨y, m, d⟩ := dt
  rw [ValidDate_mk] at h
  obtain ⟨hy, hm1, hm2, hd1, hd2⟩ := h
  rw [toOrdinal_mk] at h2
  unfold datePred
  simp only
  by_cases hd : 2 ≤ d
  · rw [if_pos hd, ValidDate_mk, toOrdinal_mk, toOrdinal_mk]
    refine ⟨⟨hy, hm1, hm2, by omega, by omega⟩, by omega⟩
  · rw [if_neg hd]
    by_cases hm : 2 ≤ m
    · rw [if_pos hm, ValidDate_mk, toOrdinal_mk, toOrdinal_mk]
      have hdim : 1 ≤ daysInMonth y (m - 1) := daysInMonth_pos y (m - 1) (by omega) (by omega)
      have hsucc : daysBeforeMonth y m = daysBeforeMonth y (m - 1) + daysInMonth y (m - 1) := by
        conv_lhs => rw [show m = (m - 1) + 1 by omega]
        exact daysBeforeMonth_succ y (m - 1)
      refine ⟨⟨hy, by omega, by omega, hdim, le_refl _⟩, by omega⟩
    · -- d = 1, m = 1: borrow a year.
      rw [if_neg hm]
      have hm' : m = 1 := by omega
      have hd' : d = 1 := by omega
      subst hm'; subst hd'
      have hdbm1 : daysBeforeMonth y 1 = 0 := by
        show daysBeforeMonth y (0 + 1) = 0
        rw [daysBeforeMonth_succ]
        simp [daysBeforeMonth, daysInMonth]
      rw [hdbm1] at h2
      have hy2 : 2 ≤ y := by omega
      have hdim12 : daysInMonth (y - 1) 12 = 31 := by
        simp [daysInMonth]
      rw [ValidDate_mk, toOrdinal_mk, toOrdinal_mk, hdbm1]
      refine ⟨⟨by omega, by omega, by omega, by omega, by rw [hdim12]⟩, ?_⟩
      rw [daysBeforeMonth_12]
      by_cases hL : isLeap (y - 1) = true
      · rw [if_pos hL]
        rw [isLeap_iff] at hL
        have h4 : (y - 1) % 4 = 0 := hL.1
        rcases hL.2 with h100 | h400
        · omega
        · omega
      · rw [if_neg (by simpa using hL)]
        rw [isLeap_iff] at hL
        push_neg at hL
        by_cases h4 : (y - 1) % 4 = 0
        · have h100 : (y - 1) % 100 = 0 := by
            by_contra hcon
            exact absurd (hL h4) (by simp [hcon])
          have h400 : (y - 1) % 400 ≠ 0 := by
            intro hcon
            exact absurd (hL h4) (by simp [hcon])
          omega
        · omega

theorem subDays_spec (dt : Date) (k : Nat) (h : ValidDate dt)
    (hk : k < toOrdinal dt) :
    ValidDate (subDays dt k) ∧ toOrdinal (subDays dt k) + k = toOrdinal dt := by
  induction k with
  | zero => exact ⟨h, rfl⟩
  | succ n ih =>
    obtain ⟨hval, hord⟩ := ih (by omega)
    have h2 : 2 ≤ toOrdinal (subDays dt n) := by omega
    obtain ⟨hval', hord'⟩ := datePred_spec (subDays dt n) hval h2
    exact ⟨hval', by simp only [subDays]; omega⟩


-- Database state and the persistent store --------------------------------

/-- One row of the `expenses` table, restricted to the columns every query
in the source selects (`id, date, category, amount, description`); the
write-once `created_at` column is never read back by any operation under
verification. -/
structure Expense where
  id : Nat
  date : String
  category : String
  amount : ℚ
  description : String
deriving DecidableEq, Repr

/-- The persistent store: the three tables created by
`DatabaseManager.init_database`, plus the next `AUTOINCREMENT` id for
`expenses`.  The `budget` table is kept as raw `(id, monthly_budget)` rows
so that its singleton discipline is a provable property, not a modelling
assumption. -/
structure DBState where
  expenses : List Expense
  budget : List (Nat × ℚ)
  categories : List String
  nextId : Nat
deriving DecidableEq, Repr

/-- State after `init_database` on a fresh file: empty `expenses` and
`budget`, categories seeded with the fixed default set (lines 61-63). -/
def initState : DBState :=
  { expenses := []
    budget := []
    categories := ["Food", "Travel", "Rent", "Shopping", "Utilities",
                   "Healthcare", "Entertainment"]
    nextId := 1 }

/-- `DatabaseManager.execute_query` (lines 70-81): run the backend for the
given statement and parameters; a raised `sqlite3.Error` is caught and
converted to `[]`.  The total return type `List α` is the formal content of
"never propagates the underlying error": every outcome is a value. -/
def execute_query {α : Type} (backend : String → List String → Except String (List α))
    (q : String) (params : List String) : List α :=
  match backend q params with
  | Except.ok rows => rows
  | Except.error _ => []

/-- `DatabaseManager.execute_update` (lines 83-94): a raised
`sqlite3.Error` is caught and converted to `false`. -/
def execute_update (backend : String → List String → Except String Unit)
    (q : String) (params : List String) : Bool :=
  match backend q params with
  | Except.ok _ => true
  | Except.error _ => false

/-- Python `x if x else 0.0` applied to a nullable SQL aggregate
(lines 171 and 257): `None` and `0.0` are both falsy. -/
def pyOrZero (x : Option ℚ) : ℚ :=
  match x with
  | none => 0
  | some v => if v = 0 then 0 else v

/-- Sum of the `amount` column over a list of expense rows. -/
def sumAmounts (l : List Expense) : ℚ :=
  (l.map (fun e => e.amount)).sum

/-- `SELECT SUM(amount)` over the given rows: SQL `SUM` is `NULL` on an
empty set of rows, otherwise the sum (the `amount` column is `NOT NULL`). -/
def sqlSumAmount (l : List Expense) : Option ℚ :=
  match l with
  | [] => none
  | _ => some (sumAmounts l)

-- ExpenseManager ----------------------------------------------------------

/-- `ExpenseManager.add_expense` (lines 103-106): insert one row; the store
assigns the next `AUTOINCREMENT` id.  Second component is the success
boolean of `execute_update` (this is the no-backend-error execution; the
error path is modelled separately via `execute_update`). -/
def add_expense (st : DBState) (date category : String) (amount : ℚ)
    (description : String) : DBState × Bool :=
  ({ st with
      expenses := st.expenses ++ [⟨st.nextId, date, category, amount, description⟩]
      nextId := st.nextId + 1 }, true)

/-- ASCII lower-casing of one character (SQLite `LIKE` is case-insensitive
on ASCII by default). -/
def asciiLowerChar (c : Char) : Char :=
  if 65 ≤ c.toNat ∧ c.toNat ≤ 90 then Char.ofNat (c.toNat + 32) else c

/-- Does `pat` occur at the start of `l`? -/
def matchAtStart : List Char → List Char → Bool
  | [], _ => true
  | _ :: _, [] => false
  | a :: as, b :: bs => a == b && matchAtStart as bs

/-- Does `pat` occur contiguously anywhere in the list? -/
def containsSeq (pat : List Char) : List Char → Bool
  | [] => matchAtStart pat []
  | c :: cs => matchAtStart pat (c :: cs) || containsSeq pat cs

/-- `description LIKE '%kw%'` (line 136-137): ASCII-case-insensitive
substring test.  (`%`/`_` wildcards inside the user keyword itself are not
modelled; no claim exercises them.) -/
def likeContains (kw text : String) : Bool :=
  containsSeq (kw.data.map asciiLowerChar) (text.data.map asciiLowerChar)

/-- `ExpenseManager.get_expenses` (lines 108-141): conjunctive optional
filters, then `ORDER BY date DESC`.  The string filters are guarded by
Python truthiness (`if start_date:`), so `some ""` behaves like `none`;
the amount filters use `is not None` and do not.  Sorting is modelled by a
(stable) insertion sort on the TEXT date ordering. -/
def get_expenses (st : DBState) (start_date end_date category : Option String)
    (min_amount max_amount : Option ℚ) (keyword : Option String) : List Expense :=
  let l := st.expenses.filter (fun e =>
    (match start_date with
     | some s => if s = "" then true else strLe s e.date
     | none => true) &&
    (match end_date with
     | some s => if s = "" then true else strLe e.date s
     | none => true) &&
    (match category with
     | some c => if c = "" then true else e.category == c
     | none => true) &&
    (match min_amount with
     | some m => decide (m ≤ e.amount)
     | none => true) &&
    (match max_amount with
     | some m => decide (e.amount ≤ m)
     | none => true) &&
    (match keyword with
     | some k => if k = "" then true else likeContains k e.description
     | none => true))
  List.insertionSort (fun a b : Expense => strLe b.date a.date = true) l

/-- Date window of `ExpenseManager.get_expense_summary` (lines 145-161),
with `today` passed explicitly in place of `datetime.now().date()`. -/
def windowOf (today : Date) (period : String) : Option String × Option String :=
  if period = "daily" then
    (some (formatDate today), some (formatDate today))
  else if period = "weekly" then
    (some (formatDate (subDays today (weekday today))), some (formatDate today))
  else if period = "monthly" then
    (some (formatDate ⟨today.year, today.month, 1⟩), some (formatDate today))
  else if period = "yearly" then
    (some (formatDate ⟨today.year, 1, 1⟩), some (formatDate today))
  else (none, none)

/-- `date BETWEEN ? AND ?` when both bounds are present (the source sets
both or neither), no constraint otherwise. -/
def inWindow (s e : Option String) (d : String) : Bool :=
  match s, e with
  | some a, some b => strLe a d && strLe d b
  | _, _ => true

/-- The rows of `SELECT category, SUM(amount) ... GROUP BY category`
(lines 175-190) before the `ORDER BY total DESC` step: one `(category,
summed amount)` pair per distinct category among `ms`. -/
def categoryGroups (ms : List Expense) : List (String × ℚ) :=
  (ms.map (fun e => e.category)).dedup.map
    (fun c => (c, sumAmounts (ms.filter (fun e => e.category == c))))

/-- The dictionary returned by `get_expense_summary` (lines 192-198). -/
structure Summary where
  total_amount : ℚ
  category_breakdown : List (String × ℚ)
  period : String
  start_date : Option String
  end_date : Option String
deriving DecidableEq, Repr

/-- `ExpenseManager.get_expense_summary` (lines 143-198) on a
non-erroring store: derive the window from `today`, take the total via
`SUM` with the Python falsy-default of line 171, and the per-category
breakdown ordered by summed amount descending (ties in an unspecified
order in SQLite; the model fixes one). -/
def get_expense_summary (st : DBState) (today : Date) (period : String) : Summary :=
  let w := windowOf today period
  let ms := st.expenses.filter (fun e => inWindow w.1 w.2 e.date)
  { total_amount := pyOrZero (sqlSumAmount ms)
    category_breakdown :=
      List.insertionSort (fun p q : String × ℚ => q.2 ≤ p.2) (categoryGroups ms)
    period := period
    start_date := w.1
    end_date := w.2 }

-- CategoryManager ---------------------------------------------------------

/-- `CategoryManager.get_categories` (lines 207-211):
`SELECT name FROM categories ORDER BY name`. -/
def get_categories (st : DBState) : List String :=
  List.insertionSort (fun a b : String => strLe a b = true) st.categories

/-- `CategoryManager.add_category` (lines 213-216): a bare `INSERT`; when
the name is already present the store's `UNIQUE` constraint makes the
insert raise, which `execute_update` converts to `false` with the table
unchanged.  Otherwise the row is appended and the call returns `true`. -/
def add_category (st : DBState) (name : String) : DBState × Bool :=
  if name ∈ st.categories then (st, false)
  else ({ st with categories := st.categories ++ [name] }, true)

-- BudgetManager -----------------------------------------------------------

/-- `BudgetManager.set_monthly_budget` (lines 225-236): check for a row
with `id = 1` (`if exists:` — Python truthiness of the row list), then
either `UPDATE ... WHERE id = 1` or `INSERT (1, amount)`. -/
def set_monthly_budget (st : DBState) (amount : ℚ) : DBState × Bool :=
  if (st.budget.filter (fun r => r.1 == 1)).isEmpty then
    ({ st with budget := st.budget ++ [(1, amount)] }, true)
  else
    ({ st with
        budget := st.budget.map (fun r => if r.1 == 1 then (r.1, amount) else r) }, true)

/-- `BudgetManager.get_monthly_budget` (lines 238-242):
`result[0][0] if result else None` over
`SELECT monthly_budget FROM budget WHERE id = 1`. -/
def get_monthly_budget (st : DBState) : Option ℚ :=
  ((st.budget.filter (fun r => r.1 == 1)).head?).map (fun r => r.2)

/-- The dictionary returned by `get_budget_status` (lines 248, 262-267). -/
structure BudgetStatus where
  budget : Option ℚ
  spent : ℚ
  remaining : ℚ
  percentage : ℚ
deriving DecidableEq, Repr

/-- Current-month spend as summed by line 255-257: expenses whose TEXT date
is between the first of `today`'s month and `today`. -/
def monthSpend (st : DBState) (today : Date) : ℚ :=
  sumAmounts (st.expenses.filter (fun e =>
    inWindow (some (formatDate ⟨today.year, today.month, 1⟩))
      (some (formatDate today)) e.date))

/-- `BudgetManager.get_budget_status` (lines 244-267) on a non-erroring
store.  `if not budget:` is Python truthiness: both `None` and a stored
`0.0` take the early-return branch.  Otherwise `spent` is the current-month
`SUM` with the falsy default of line 257, `remaining = budget - spent`, and
`percentage = spent / budget * 100` guarded by `budget > 0`. -/
def get_budget_status (st : DBState) (today : Date) : BudgetStatus :=
  match get_monthly_budget st with
  | none => ⟨none, 0, 0, 0⟩
  | some b =>
    if b = 0 then ⟨none, 0, 0, 0⟩
    else
      let ms := st.expenses.filter (fun e =>
        inWindow (some (formatDate ⟨today.year, today.month, 1⟩))
          (some (formatDate today)) e.date)
      let spent := pyOrZero (sqlSumAmount ms)
      ⟨some b, spent, b - spent, if 0 < b then spent / b * 100 else 0⟩

-- Unchecked first-row indexing (claim C9) ---------------------------------

/-- Line 171, `total_result[0][0] if total_result[0][0] else 0.0`, as a
function of the raw query result: `none` models the `IndexError` raised
when the result sequence is empty; otherwise the usual falsy default. -/
def summaryTotalOfRows (qres : List (Option ℚ)) : Option ℚ :=
  match qres.head? with
  | none => none
  | some v => some (pyOrZero v)

/-- Line 257, `spent_result[0][0] if spent_result[0][0] else 0.0`, same
unchecked indexing pattern in `get_budget_status`. -/
def statusSpentOfRows (qres : List (Option ℚ)) : Option ℚ :=
  match qres.head? with
  | none => none
  | some v => some (pyOrZero v)

-- Aggregation lemmas ------------------------------------------------------

theorem sumAmounts_nil : sumAmounts [] = 0 := rfl

theorem sumAmounts_cons (e : Expense) (l : List Expense) :
    sumAmounts (e :: l) = e.amount + sumAmounts l := by
  simp [sumAmounts]

/-- The Python falsy-default applied to the SQL `SUM` equals the plain
mathematical sum (the `NULL`-on-empty and the `0.0`-is-falsy cases both
collapse to `0`). -/
theorem pyOrZero_sqlSumAmount (l : List Expense) :
    pyOrZero (sqlSumAmount l) = sumAmounts l := by
  cases l with
  | nil => rfl
  | cons e t =>
    show (if sumAmounts (e :: t) = 0 then (0 : ℚ) else sumAmounts (e :: t))
      = sumAmounts (e :: t)
    by_cases hz : sumAmounts (e :: t) = 0
    · rw [if_pos hz, hz]
    · rw [if_neg hz]

theorem sum_map_zero (ks : List String) : (ks.map (fun _ => (0 : ℚ))).sum = 0 := by
  induction ks with
  | nil => rfl
  | cons c cs ih =>
    rw [List.map_cons, List.sum_cons, ih]
    ring

theorem sum_map_ite_add (ks : List String) (x : String) (A : ℚ) (S : String → ℚ)
    (hnd : ks.Nodup) (hx : x ∈ ks) :
    (ks.map (fun c => if x == c then A + S c else S c)).sum = A + (ks.map S).sum := by
  induction ks with
  | nil => cases hx
  | cons c cs ih =>
    rw [List.map_cons, List.map_cons, List.sum_cons, List.sum_cons]
    rcases List.mem_cons.mp hx with hxc | hxcs
    · subst hxc
      rw [if_pos (by simp)]
      have hnotin : x ∉ cs := (List.nodup_cons.mp hnd).1
      have hmap : cs.map (fun c => if x == c then A + S c else S c) = cs.map S := by
        apply List.map_congr_left
        intro a ha
        have hne : x ≠ a := fun h => hnotin (h ▸ ha)
        rw [if_neg (by simpa using hne)]
      rw [hmap]
      ring
    · have hne : x ≠ c := by
        rintro rfl
        exact (List.nodup_cons.mp hnd).1 hxcs
      rw [if_neg (by simpa using hne), ih (List.nodup_cons.mp hnd).2 hxcs]
      ring

/-- Summing the per-key filtered totals over a duplicate-free key list that
covers every row's category recovers the total sum. -/
theorem sum_filter_partition (ms : List Expense) (ks : List String)
    (hnd : ks.Nodup) (hcov : ∀ e ∈ ms, e.category ∈ ks) :
    (ks.map (fun c => sumAmounts (ms.filter (fun e => e.category == c)))).sum
      = sumAmounts ms := by
  induction ms with
  | nil =>
    rw [sumAmounts_nil]
    have hmap : ks.map (fun c => sumAmounts (([] : List Expense).filter
        (fun e => e.category == c))) = ks.map (fun _ => (0 : ℚ)) := by
      apply List.map_congr_left
      intro a _
      rfl
    rw [hmap, sum_map_zero]
  | cons e t ih =>
    have hcov' : ∀ x ∈ t, x.category ∈ ks := fun x hx => hcov x (List.mem_cons_of_mem e hx)
    have hek : e.category ∈ ks := hcov e (List.mem_cons_self e t)
    have hstep : ∀ c ∈ ks, sumAmounts ((e :: t).filter (fun x => x.category == c)) =
        (fun c => if e.category == c then
          e.amount + sumAmounts (t.filter (fun x => x.category == c))
          else sumAmounts (t.filter (fun x => x.category == c))) c := by
      intro c _
      rw [List.filter_cons]
      by_cases hc : (e.category == c) = true
      · simp only [hc, if_pos, sumAmounts_cons]
      · simp only [if_neg hc]
    rw [List.map_congr_left hstep,
        sum_map_ite_add ks e.category e.amount _ hnd hek, ih hcov', sumAmounts_cons]

-- Claim theorems ----------------------------------------------------------

/-- C4: for every state satisfying the budget table's reachable-state shape
(at most one row, keyed 1 — what the `id = 1` upsert of
`set_monthly_budget` maintains from the empty initial table), setting the
budget twice leaves exactly one budget row, holding the latest value, and
`get_monthly_budget` returns it. -/
theorem budget_singleton_after_two_sets (st : DBState) (b1 b2 : ℚ)
    (hinv : st.budget = [] ∨ ∃ x, st.budget = [(1, x)]) :
    ((set_monthly_budget (set_monthly_budget st b1).1 b2).1).budget = [(1, b2)] ∧
    get_monthly_budget (set_monthly_budget (set_monthly_budget st b1).1 b2).1 = some b2 := by
  have key : ∀ (s : DBState) (b : ℚ), (s.budget = [] ∨ ∃ x, s.budget = [(1, x)]) →
      ((set_monthly_budget s b).1).budget = [(1, b)] := by
    intro s b hs
    rcases hs with h | ⟨x, h⟩ <;> simp [set_monthly_budget, h]
  have h1 : ((set_monthly_budget st b1).1).budget = [(1, b1)] := key st b1 hinv
  have h2 : ((set_monthly_budget (set_monthly_budget st b1).1 b2).1).budget = [(1, b2)] :=
    key _ b2 (Or.inr ⟨b1, h1⟩)
  exact ⟨h2, by simp [get_monthly_budget, h2]⟩

/-- Witness for C4: two sets from the freshly initialized store. -/
theorem budget_singleton_after_two_sets_witness :
    (initState.budget = [] ∨ ∃ x, initState.budget = [(1, x)]) ∧
    (((set_monthly_budget (set_monthly_budget initState 50).1 75).1).budget = [(1, 75)] ∧
     get_monthly_budget (set_monthly_budget (set_monthly_budget initState 50).1 75).1
       = some 75) :=
  ⟨Or.inl rfl, budget_singleton_after_two_sets initState 50 75 (Or.inl rfl)⟩

/-- C6: adding a category name that is already in the (duplicate-free)
registry returns `false` — the store's `UNIQUE` constraint fails the
insert — and the listing afterwards contains the name exactly once. -/
theorem add_category_duplicate_reports_failure (st : DBState) (n : String)
    (hmem : n ∈ st.categories) (hnodup : st.categories.Nodup) :
    (add_category st n).2 = false ∧
    (get_categories (add_category st n).1).count n = 1 := by
  have h1 : add_category st n = (st, false) := by simp [add_category, hmem]
  refine ⟨by rw [h1], ?_⟩
  rw [h1]
  have hperm := List.perm_insertionSort (fun a b : String => strLe a b = true) st.categories
  unfold get_categories
  rw [hperm.count_eq]
  exact List.count_eq_one_of_mem hnodup hmem

/-- Witness for C6: re-adding the seeded category "Food". -/
theorem add_category_duplicate_reports_failure_witness :
    ("Food" ∈ initState.categories ∧ initState.categories.Nodup) ∧
    ((add_category initState "Food").2 = false ∧
     (get_categories (add_category initState "Food").1).count "Food" = 1) :=
  ⟨⟨by decide, by decide⟩,
    add_category_duplicate_reports_failure initState "Food" (by decide) (by decide)⟩

/-- C7 counterexample: adding a duplicate category via `add_category` is
NOT error-free — re-adding the seeded name "Food" reports failure (the
call returns `false`, which the menu layer prints as a failed add), so the
claim that a duplicate add "does not report an error" is false. -/
theorem add_category_duplicate_not_silent_cex :
    "Food" ∈ initState.categories ∧ ¬ ((add_category initState "Food").2 = true) := by
  decide

/-- C7 as amended: a duplicate `add_category` is a no-op on the registry
state, but it reports failure (returns `false`) rather than succeeding
silently. -/
theorem add_category_duplicate_is_noop_on_state (st : DBState) (n : String)
    (hmem : n ∈ st.categories) :
    (add_category st n).1 = st ∧ (add_category st n).2 = false := by
  simp [add_category, hmem]

/-- Witness for the amended C7. -/
theorem add_category_duplicate_is_noop_on_state_witness :
    "Travel" ∈ initState.categories ∧
    ((add_category initState "Travel").1 = initState ∧
     (add_category initState "Travel").2 = false) :=
  ⟨by decide, add_category_duplicate_is_noop_on_state initState "Travel" (by decide)⟩

/-- C8: whenever the storage backend reports an error for the executed
statement, `execute_query` returns the empty row list and `execute_update`
returns `false`; both are total functions, so the error is never
re-raised to the caller. -/
theorem execute_fails_soft (α : Type)
    (bq : String → List String → Except String (List α))
    (bu : String → List String → Except String Unit)
    (q : String) (ps : List String) (e1 e2 : String)
    (hq : bq q ps = Except.error e1) (hu : bu q ps = Except.error e2) :
    execute_query bq q ps = [] ∧ execute_update bu q ps = false := by
  constructor
  · unfold execute_query
    rw [hq]
  · unfold execute_update
    rw [hu]

/-- A storage backend whose SELECT path always fails. -/
def failingQueryBackend : String → List String → Except String (List (List String)) :=
  fun _ _ => Except.error "database is locked"

/-- A storage backend whose write path always fails. -/
def failingUpdateBackend : String → List String → Except String Unit :=
  fun _ _ => Except.error "database is locked"

/-- Witness for C8 on concrete failing backends. -/
theorem execute_fails_soft_witness :
    failingQueryBackend "SELECT name FROM categories" [] = Except.error "database is locked" ∧
    failingUpdateBackend "INSERT INTO categories (name) VALUES (?)" ["Pets"]
      = Except.error "database is locked" ∧
    (execute_query failingQueryBackend "SELECT name FROM categories" [] = [] ∧
     execute_update failingUpdateBackend "INSERT INTO categories (name) VALUES (?)" ["Pets"]
       = false) :=
  ⟨rfl, rfl,
    execute_fails_soft (List String) failingQueryBackend failingUpdateBackend
      "SELECT name FROM categories" [] "database is locked" "database is locked" rfl rfl⟩

/-- C9: both aggregate readers index the first row of the query result
unconditionally.  When the store's query path fails — whose recovery value
is exactly the empty row sequence — the indexing has no value to return
(the modelled `IndexError`, `none`); when the result has at least one row
it always produces a value. -/
theorem unchecked_aggregate_indexing
    (bq : String → List String → Except String (List (Option ℚ)))
    (q : String) (ps : List String) (e : String)
    (herr : bq q ps = Except.error e)
    (rows : List (Option ℚ)) (hrows : rows ≠ []) :
    summaryTotalOfRows (execute_query bq q ps) = none ∧
    statusSpentOfRows (execute_query bq q ps) = none ∧
    (summaryTotalOfRows rows).isSome = true ∧
    (statusSpentOfRows rows).isSome = true := by
  have hq : execute_query bq q ps = [] := by
    unfold execute_query
    rw [herr]
  refine ⟨by rw [hq]; rfl, by rw [hq]; rfl, ?_, ?_⟩
  · cases rows with
    | nil => exact absurd rfl hrows
    | cons a t => rfl
  · cases rows with
    | nil => exact absurd rfl hrows
    | cons a t => rfl

/-- A storage backend whose aggregate SELECT always fails. -/
def failingAggBackend : String → List String → Except String (List (Option ℚ)) :=
  fun _ _ => Except.error "no such table: expenses"

/-- Witness for C9: a failing backend on one side, the one-row result
SQLite actually produces for a `SUM` query on the other. -/
theorem unchecked_aggregate_indexing_witness :
    failingAggBackend "SELECT SUM(amount) FROM expenses" []
      = Except.error "no such table: expenses" ∧
    ([some (5 : ℚ)] ≠ ([] : List (Option ℚ))) ∧
    (summaryTotalOfRows
        (execute_query failingAggBackend "SELECT SUM(amount) FROM expenses" []) = none ∧
     statusSpentOfRows
        (execute_query failingAggBackend "SELECT SUM(amount) FROM expenses" []) = none ∧
     (summaryTotalOfRows [some (5 : ℚ)]).isSome = true ∧
     (statusSpentOfRows [some (5 : ℚ)]).isSome = true) :=
  ⟨rfl, by decide,
    unchecked_aggregate_indexing failingAggBackend "SELECT SUM(amount) FROM expenses" []
      "no such table: expenses" rfl [some 5] (by decide)⟩

/-- C10: a stored budget of `0` drives `get_budget_status` through the
no-budget branch (`if not budget:` is true for `0.0`): the status is the
same `{budget: None, spent: 0, remaining: 0, percentage: 0}` record as for
an unset budget, even though `get_monthly_budget` itself distinguishes the
two states (`some 0` versus `none`). -/
theorem zero_budget_indistinguishable_from_unset (st st2 : DBState)
    (today today2 : Date)
    (h0 : get_monthly_budget st = some 0) (hn : get_monthly_budget st2 = none) :
    get_budget_status st today = ⟨none, 0, 0, 0⟩ ∧
    get_budget_status st2 today2 = ⟨none, 0, 0, 0⟩ := by
  constructor
  · unfold get_budget_status
    rw [h0]
    simp
  · unfold get_budget_status
    rw [hn]

/-- A store holding an explicit zero budget. -/
def stZeroBudget : DBState := { initState with budget := [(1, 0)] }

/-- Witness for C10: explicit zero budget versus the fresh store. -/
theorem zero_budget_indistinguishable_from_unset_witness :
    (get_monthly_budget stZeroBudget = some 0 ∧ get_monthly_budget initState = none) ∧
    (get_budget_status stZeroBudget ⟨2024, 5, 15⟩ = ⟨none, 0, 0, 0⟩ ∧
     get_budget_status initState ⟨2024, 5, 15⟩ = ⟨none, 0, 0, 0⟩) :=
  ⟨⟨by decide, by decide⟩,
    zero_budget_indistinguishable_from_unset stZeroBudget initState ⟨2024, 5, 15⟩
      ⟨2024, 5, 15⟩ (by decide) (by decide)⟩

/-- A store with budget 100 and one current-month (May 2024) expense of 80. -/
def stSpend80 : DBState :=
  { expenses := [⟨1, "2024-05-10", "Food", 80, "groceries"⟩]
    budget := [(1, 100)]
    categories := initState.categories
    nextId := 2 }

/-- A store with budget 100 and one current-month (May 2024) expense of 120. -/
def stSpend120 : DBState :=
  { expenses := [⟨1, "2024-05-10", "Food", 120, "groceries"⟩]
    budget := [(1, 100)]
    categories := initState.categories
    nextId := 2 }

/-- C5: with a positive stored budget `b`, `get_budget_status` returns
spent = the current-month spend `s`, remaining = `b - s` (possibly
negative) and percentage = `s / b * 100`; for a non-positive stored budget
the percentage is 0 (`b = 0` through the falsy early return, `b < 0`
through the division guard).  In particular budget 100 with spend 80
yields percentage 80 and remaining 20, and spend 120 yields remaining -20
and percentage 120. -/
theorem budget_status_formulas (st : DBState) (today : Date) (b : ℚ)
    (hb : get_monthly_budget st = some b) :
    (0 < b →
      get_budget_status st today =
        ⟨some b, monthSpend st today, b - monthSpend st today,
          monthSpend st today / b * 100⟩) ∧
    (b ≤ 0 → (get_budget_status st today).percentage = 0) ∧
    get_budget_status stSpend80 ⟨2024, 5, 15⟩ = ⟨some 100, 80, 20, 80⟩ ∧
    get_budget_status stSpend120 ⟨2024, 5, 15⟩ = ⟨some 100, 120, -20, 120⟩ := by
  have general : ∀ (s : DBState) (t : Date) (bb : ℚ),
      get_monthly_budget s = some bb → 0 < bb →
      get_budget_status s t =
        ⟨some bb, monthSpend s t, bb - monthSpend s t, monthSpend s t / bb * 100⟩ := by
    intro s t bb hbb hpos
    have hb0 : ¬ bb = 0 := ne_of_gt hpos
    unfold get_budget_status
    rw [hbb]
    show (if bb = 0 then (⟨none, 0, 0, 0⟩ : BudgetStatus) else _) = _
    rw [if_neg hb0]
    simp only [pyOrZero_sqlSumAmount]
    rw [if_pos hpos]
    rfl
  have h80 : monthSpend stSpend80 ⟨2024, 5, 15⟩ = 80 := by
    show (80 : ℚ) + 0 = 80
    norm_num
  have h120 : monthSpend stSpend120 ⟨2024, 5, 15⟩ = 120 := by
    show (120 : ℚ) + 0 = 120
    norm_num
  refine ⟨general st today b hb, ?_, ?_, ?_⟩
  · intro hle
    unfold get_budget_status
    rw [hb]
    show (if b = 0 then (⟨none, 0, 0, 0⟩ : BudgetStatus) else _).percentage = 0
    by_cases hz : b = 0
    · rw [if_pos hz]
    · rw [if_neg hz]
      have hnp : ¬ 0 < b := not_lt.mpr hle
      show (⟨some b, _, _, if 0 < b then _ else 0⟩ : BudgetStatus).percentage = 0
      rw [if_neg hnp]
  · rw [general stSpend80 ⟨2024, 5, 15⟩ 100 (by decide) (by norm_num), h80]
    simp only [BudgetStatus.mk.injEq]
    norm_num
  · rw [general stSpend120 ⟨2024, 5, 15⟩ 100 (by decide) (by norm_num), h120]
    simp only [BudgetStatus.mk.injEq]
    norm_num

/-- Witness for C5 at the spend-80 store. -/
theorem budget_status_formulas_witness :
    get_monthly_budget stSpend80 = some 100 ∧
    ((0 < (100 : ℚ) →
      get_budget_status stSpend80 ⟨2024, 5, 15⟩ =
        ⟨some 100, monthSpend stSpend80 ⟨2024, 5, 15⟩,
          100 - monthSpend stSpend80 ⟨2024, 5, 15⟩,
          monthSpend stSpend80 ⟨2024, 5, 15⟩ / 100 * 100⟩) ∧
    ((100 : ℚ) ≤ 0 → (get_budget_status stSpend80 ⟨2024, 5, 15⟩).percentage = 0) ∧
    get_budget_status stSpend80 ⟨2024, 5, 15⟩ = ⟨some 100, 80, 20, 80⟩ ∧
    get_budget_status stSpend120 ⟨2024, 5, 15⟩ = ⟨some 100, 120, -20, 120⟩) :=
  ⟨by decide, budget_status_formulas stSpend80 ⟨2024, 5, 15⟩ 100 (by decide)⟩

/-- C1: recording a valid expense and querying with no filters returns the
recorded expense exactly once — the unique returned row carrying the fresh
id is precisely the written (date, category, amount, description) — and on
an empty ledger the whole result is exactly that one row. -/
theorem record_then_query_roundtrip (st : DBState) (d c : String) (a : ℚ)
    (desc : String) (hpos : 0 < a)
    (hfresh : ∀ e ∈ st.expenses, e.id ≠ st.nextId) :
    (add_expense st d c a desc).2 = true ∧
    ((get_expenses (add_expense st d c a desc).1 none none none none none none).filter
        (fun e => e.id == st.nextId)) = [⟨st.nextId, d, c, a, desc⟩] ∧
    (st.expenses = [] →
      get_expenses (add_expense st d c a desc).1 none none none none none none
        = [⟨st.nextId, d, c, a, desc⟩]) := by
  have hq : get_expenses (add_expense st d c a desc).1 none none none none none none
      = List.insertionSort (fun x y : Expense => strLe y.date x.date = true)
          (st.expenses ++ [⟨st.nextId, d, c, a, desc⟩]) := by
    unfold get_expenses add_expense
    simp
  refine ⟨rfl, ?_, ?_⟩
  · rw [hq]
    have hperm := (List.perm_insertionSort
        (fun x y : Expense => strLe y.date x.date = true)
        (st.expenses ++ [⟨st.nextId, d, c, a, desc⟩])).filter
        (fun e => e.id == st.nextId)
    have hfil : List.filter (fun e => e.id == st.nextId)
        (st.expenses ++ [(⟨st.nextId, d, c, a, desc⟩ : Expense)])
        = [⟨st.nextId, d, c, a, desc⟩] := by
      rw [List.filter_append]
      have h1 : st.expenses.filter (fun e => e.id == st.nextId) = [] := by
        rw [List.filter_eq_nil_iff]
        intro e he
        simp [hfresh e he]
      rw [h1]
      simp
    rw [hfil] at hperm
    exact List.perm_singleton.mp hperm
  · intro hnil
    rw [hq, hnil]
    rfl

/-- Witness for C1: one expense recorded on the freshly initialized store. -/
theorem record_then_query_roundtrip_witness :
    (0 < (5 : ℚ) ∧ ∀ e ∈ initState.expenses, e.id ≠ initState.nextId) ∧
    ((add_expense initState "2024-05-10" "Food" 5 "lunch").2 = true ∧
     ((get_expenses (add_expense initState "2024-05-10" "Food" 5 "lunch").1
        none none none none none none).filter
        (fun e => e.id == initState.nextId))
       = [⟨initState.nextId, "2024-05-10", "Food", 5, "lunch"⟩] ∧
     (initState.expenses = [] →
      get_expenses (add_expense initState "2024-05-10" "Food" 5 "lunch").1
        none none none none none none
        = [⟨initState.nextId, "2024-05-10", "Food", 5, "lunch"⟩])) :=
  ⟨⟨by decide, by decide⟩,
    record_then_query_roundtrip initState "2024-05-10" "Food" 5 "lunch"
      (by decide) (by decide)⟩

/-- The per-category totals of the `GROUP BY` rows sum to the overall
total of the grouped rows. -/
theorem categoryGroups_sum (ms : List Expense) :
    ((categoryGroups ms).map (fun p => p.2)).sum = sumAmounts ms := by
  unfold categoryGroups
  rw [List.map_map]
  exact sum_filter_partition ms ((ms.map (fun e => e.category)).dedup)
    (List.nodup_dedup _)
    (fun e he => List.mem_dedup.mpr (List.mem_map.mpr ⟨e, he, rfl⟩))

theorem inWindow_none (d : String) : inWindow none none d = true := rfl

/-- C3: for every ledger state and period, the amounts in the summary's
`category_breakdown` add up exactly to its `total_amount`; and when no
expense falls in the summary's window the total is 0 and the breakdown is
empty. -/
theorem breakdown_sums_to_total (st : DBState) (today : Date) (period : String) :
    (((get_expense_summary st today period).category_breakdown).map
        (fun p => p.2)).sum = (get_expense_summary st today period).total_amount ∧
    (st.expenses.filter (fun e =>
        inWindow (get_expense_summary st today period).start_date
          (get_expense_summary st today period).end_date e.date) = [] →
      (get_expense_summary st today period).total_amount = 0 ∧
      (get_expense_summary st today period).category_breakdown = []) := by
  constructor
  · show ((List.insertionSort (fun p q : String × ℚ => q.2 ≤ p.2)
        (categoryGroups (st.expenses.filter (fun e =>
          inWindow (windowOf today period).1 (windowOf today period).2 e.date)))).map
        (fun p => p.2)).sum
      = pyOrZero (sqlSumAmount (st.expenses.filter (fun e =>
          inWindow (windowOf today period).1 (windowOf today period).2 e.date)))
    rw [((List.perm_insertionSort _ _).map (fun p : String × ℚ => p.2)).sum_eq,
        pyOrZero_sqlSumAmount]
    exact categoryGroups_sum _
  · intro hnil
    have hnil2 : st.expenses.filter (fun e =>
        inWindow (windowOf today period).1 (windowOf today period).2 e.date) = [] := hnil
    constructor
    · show pyOrZero (sqlSumAmount (st.expenses.filter (fun e =>
          inWindow (windowOf today period).1 (windowOf today period).2 e.date))) = 0
      rw [hnil2]
      rfl
    · show List.insertionSort (fun p q : String × ℚ => q.2 ≤ p.2)
        (categoryGroups (st.expenses.filter (fun e =>
          inWindow (windowOf today period).1 (windowOf today period).2 e.date))) = []
      rw [hnil2]
      rfl

/-- Witness for C3 on the empty ledger (which also exemplifies the
no-matching-expense case). -/
theorem breakdown_sums_to_total_witness :
    ((((get_expense_summary initState ⟨2024, 5, 15⟩ "monthly").category_breakdown).map
        (fun p => p.2)).sum
      = (get_expense_summary initState ⟨2024, 5, 15⟩ "monthly").total_amount) ∧
    ((get_expense_summary initState ⟨2024, 5, 15⟩ "monthly").total_amount = 0 ∧
     (get_expense_summary initState ⟨2024, 5, 15⟩ "monthly").category_breakdown = []) :=
  ⟨(breakdown_sums_to_total initState ⟨2024, 5, 15⟩ "monthly").1,
   (breakdown_sums_to_total initState ⟨2024, 5, 15⟩ "monthly").2 rfl⟩

/-- C2: for every state and period, the summary's window is derived from
`today` as specified — daily: today/today; weekly: from the most recent
Monday on or before today through today; monthly: from the first of
today's month; yearly: from January 1; any other period string: no window
— and its total is exactly the sum of the amounts of the expenses whose
date (TEXT comparison) lies in that inclusive window, all expenses when
there is no window. -/
theorem summary_window_matches_spec (st : DBState) (today : Date) (period : String)
    (hv : ValidDate today) :
    ((get_expense_summary st today period).total_amount
      = sumAmounts (st.expenses.filter (fun e =>
          inWindow (get_expense_summary st today period).start_date
            (get_expense_summary st today period).end_date e.date))) ∧
    (period = "daily" →
      (get_expense_summary st today period).start_date = some (formatDate today) ∧
      (get_expense_summary st today period).end_date = some (formatDate today)) ∧
    (period = "weekly" →
      ∃ m : Date, ValidDate m ∧ weekday m = 0 ∧ toOrdinal m ≤ toOrdinal today ∧
        (∀ m2 : Date, ValidDate m2 → weekday m2 = 0 →
          toOrdinal m2 ≤ toOrdinal today → toOrdinal m2 ≤ toOrdinal m) ∧
        (get_expense_summary st today period).start_date = some (formatDate m) ∧
        (get_expense_summary st today period).end_date = some (formatDate today)) ∧
    (period = "monthly" →
      (get_expense_summary st today period).start_date
        = some (formatDate ⟨today.year, today.month, 1⟩) ∧
      (get_expense_summary st today period).end_date = some (formatDate today)) ∧
    (period = "yearly" →
      (get_expense_summary st today period).start_date
        = some (formatDate ⟨today.year, 1, 1⟩) ∧
      (get_expense_summary st today period).end_date = some (formatDate today)) ∧
    (period ≠ "daily" → period ≠ "weekly" → period ≠ "monthly" → period ≠ "yearly" →
      (get_expense_summary st today period).start_date = none ∧
      (get_expense_summary st today period).end_date = none ∧
      (get_expense_summary st today period).total_amount = sumAmounts st.expenses) := by
  refine ⟨pyOrZero_sqlSumAmount _, ?_, ?_, ?_, ?_, ?_⟩
  · intro h
    subst h
    exact ⟨rfl, rfl⟩
  · intro h
    subst h
    have hn : 1 ≤ toOrdinal today := toOrdinal_pos today hv
    have hw : weekday today = (toOrdinal today + 6) % 7 := rfl
    have hwlt : weekday today < toOrdinal today := by rw [hw]; omega
    obtain ⟨hval, hord⟩ := subDays_spec today (weekday today) hv hwlt
    refine ⟨subDays today (weekday today), hval, ?_, by omega, ?_, rfl, rfl⟩
    · show (toOrdinal (subDays today (weekday today)) + 6) % 7 = 0
      omega
    · intro m2 hv2 hwd2 hle2
      have h1 : 1 ≤ toOrdinal m2 := toOrdinal_pos m2 hv2
      have h2 : (toOrdinal m2 + 6) % 7 = 0 := hwd2
      omega
  · intro h
    subst h
    exact ⟨rfl, rfl⟩
  · intro h
    subst h
    exact ⟨rfl, rfl⟩
  · intro h1 h2 h3 h4
    have hwin : windowOf today period = (none, none) := by
      unfold windowOf
      rw [if_neg h1, if_neg h2, if_neg h3, if_neg h4]
    refine ⟨?_, ?_, ?_⟩
    · show (windowOf today period).1 = none
      rw [hwin]
    · show (windowOf today period).2 = none
      rw [hwin]
    · show pyOrZero (sqlSumAmount (st.expenses.filter (fun e =>
          inWindow (windowOf today period).1 (windowOf today period).2 e.date)))
        = sumAmounts st.expenses
      rw [hwin, pyOrZero_sqlSumAmount]
      have hfil : st.expenses.filter (fun e =>
          inWindow ((none, none) : Option String × Option String).1
            ((none, none) : Option String × Option String).2 e.date) = st.expenses :=
        List.filter_eq_self.mpr (fun a _ => rfl)
      rw [hfil]

/-- Witness for C2 at a concrete state, date and the weekly period. -/
theorem summary_window_matches_spec_witness :
    ValidDate ⟨2024, 5, 15⟩ ∧
    (((get_expense_summary stSpend80 ⟨2024, 5, 15⟩ "weekly").total_amount
      = sumAmounts (stSpend80.expenses.filter (fun e =>
          inWindow (get_expense_summary stSpend80 ⟨2024, 5, 15⟩ "weekly").start_date
            (get_expense_summary stSpend80 ⟨2024, 5, 15⟩ "weekly").end_date e.date))) ∧
    ("weekly" = "daily" →
      (get_expense_summary stSpend80 ⟨2024, 5, 15⟩ "weekly").start_date
        = some (formatDate ⟨2024, 5, 15⟩) ∧
      (get_expense_summary stSpend80 ⟨2024, 5, 15⟩ "weekly").end_date
        = some (formatDate ⟨2024, 5, 15⟩)) ∧
    ("weekly" = "weekly" →
      ∃ m : Date, ValidDate m ∧ weekday m = 0 ∧ toOrdinal m ≤ toOrdinal ⟨2024, 5, 15⟩ ∧
        (∀ m2 : Date, ValidDate m2 → weekday m2 = 0 →
          toOrdinal m2 ≤ toOrdinal ⟨2024, 5, 15⟩ → toOrdinal m2 ≤ toOrdinal m) ∧
        (get_expense_summary stSpend80 ⟨2024, 5, 15⟩ "weekly").start_date
          = some (formatDate m) ∧
        (get_expense_summary stSpend80 ⟨2024, 5, 15⟩ "weekly").end_date
          = some (formatDate ⟨2024, 5, 15⟩)) ∧
    ("weekly" = "monthly" →
      (get_expense_summary stSpend80 ⟨2024, 5, 15⟩ "weekly").start_date
        = some (formatDate ⟨2024, 5, 1⟩) ∧
      (get_expense_summary stSpend80 ⟨2024, 5, 15⟩ "weekly").end_date
        = some (formatDate ⟨2024, 5, 15⟩)) ∧
    ("weekly" = "yearly" →
      (get_expense_summary stSpend80 ⟨2024, 5, 15⟩ "weekly").start_date
        = some (formatDate ⟨2024, 1, 1⟩) ∧
      (get_expense_summary stSpend80 ⟨2024, 5, 15⟩ "weekly").end_date
        = some (formatDate ⟨2024, 5, 15⟩)) ∧
    ("weekly" ≠ "daily" → "weekly" ≠ "weekly" → "weekly" ≠ "monthly" →
      "weekly" ≠ "yearly" →
      (get_expense_summary stSpend80 ⟨2024, 5, 15⟩ "weekly").start_date = none ∧
      (get_expense_summary stSpend80 ⟨2024, 5, 15⟩ "weekly").end_date = none ∧
      (get_expense_summary stSpend80 ⟨2024, 5, 15⟩ "weekly").total_amount
        = sumAmounts stSpend80.expenses)) :=
  ⟨by decide, summary_window_matches_spec stSpend80 ⟨2024, 5, 15⟩ "weekly" (by decide)⟩
